import Mathlib

/-!
Shallow embedding of `telegram_flask_verification_bot.py`: the pending
join-request store (a Python dict keyed by user id), the two core handlers
`handle_join_request` and `handle_contact_shared`, the MarkdownV2 escaping
applied to the admin audit message, and the Flask routes `webhook` and
`root_route`.

External effects (Telegram sends, `approve()`) are fallible calls; each is
modelled by a boolean oracle saying whether that call succeeds, and the
handler's observable behaviour (resulting store, outcome, which sends and
approvals happened) is returned explicitly.
-/

namespace Telenum

/-- A Telegram user, with the fields the handlers read. -/
structure TgUser where
  id : Int
  full_name : String
  username : Option String
deriving DecidableEq, Repr

/-- A Telegram chat (the group being joined). -/
structure TgChat where
  id : Int
  title : String
deriving DecidableEq, Repr

/-- A shared contact: the subject's user id and phone number. -/
structure TgContact where
  user_id : Int
  phone_number : String
deriving DecidableEq, Repr

/-- A chat join request object: the request handle stored in
`pending_join_requests` and later used for `approve()`. -/
structure ChatJoinRequest where
  from_user : TgUser
  chat : TgChat
deriving DecidableEq, Repr

/-- An incoming private message carrying an optional contact. -/
structure TgMessage where
  from_user : TgUser
  contact : Option TgContact
deriving DecidableEq, Repr

/-- The `pending_join_requests` dict: entries of user id to join request,
in insertion order, as a Python dict stores them. -/
abbrev Store := List (Int × ChatJoinRequest)

/-- `d[k] = v` on a Python dict: overwrite the entry if the key is present,
otherwise append a new entry. -/
def dictSet (s : Store) (k : Int) (v : ChatJoinRequest) : Store :=
  if s.any (fun p => p.1 == k) then
    s.map (fun p => if p.1 == k then (k, v) else p)
  else
    s ++ [(k, v)]

/-- `k in d` on a Python dict. -/
def dictContains (s : Store) (k : Int) : Bool :=
  s.any (fun p => p.1 == k)

/-- `d.get(k)` / `d[k]` lookup. -/
def dictGet (s : Store) (k : Int) : Option ChatJoinRequest :=
  (s.find? (fun p => p.1 == k)).map Prod.snd

/-- `del d[k]` on a Python dict. -/
def dictDel (s : Store) (k : Int) : Store :=
  s.filter (fun p => p.1 != k)

/-- `d.pop(k)`: the removed value (if any) and the remaining dict. -/
def dictPop (s : Store) (k : Int) : Option ChatJoinRequest × Store :=
  match s.find? (fun p => p.1 == k) with
  | some p => (some p.2, dictDel s k)
  | none => (none, s)

/-- Number of entries stored under key `k`. -/
def countKey (s : Store) (k : Int) : Nat :=
  (s.filter (fun p => p.1 == k)).length

/-- The state-machine outcome of one event, per the spec's
`VerificationOutcome`. -/
inductive VerificationOutcome where
  | Prompted
  | Approved
  | ApprovalFailed
  | NoPendingRequest
  | InvalidContact
deriving DecidableEq, Repr

/-- `handle_join_request`: store the request under the user's id, then try
to send the verification prompt; if the send raises (`sendOk = false`),
delete the just-stored entry. Returns the resulting store. -/
def handle_join_request (sendOk : Bool) (store : Store)
    (chat_join_request : ChatJoinRequest) : Store :=
  let uid := chat_join_request.from_user.id
  let store1 := dictSet store uid chat_join_request
  if sendOk then store1
  else if dictContains store1 uid then dictDel store1 uid
  else store1

/-- Observable result of `handle_contact_shared`: the store afterwards, the
outcome, the request handles on which `approve()` was invoked, and which
side effects happened. -/
structure ContactResult where
  store : Store
  outcome : VerificationOutcome
  approveCalls : List ChatJoinRequest
  approveSucceeded : Bool
  successReplySent : Bool
  apologyReplySent : Bool
  adminNotified : Bool
deriving DecidableEq, Repr

/-- `handle_contact_shared`: if the message carries a contact whose
`user_id` equals the sender's id and a pending request exists, pop it and
try `approve()`; on approve success send the success reply, then (inside
its own try/except) send the admin notification when `ADMIN_CHAT_ID` is
configured; any exception from `approve()` or the success reply falls to
the outer except, which sends the apology reply. Oracles: `approveOk` for
`approve()`, `successReplyOk` for the success `reply_text`,
`adminConfigured` for `ADMIN_CHAT_ID` being set, `adminSendOk` for the
admin `send_message`. -/
def handle_contact_shared (approveOk successReplyOk adminConfigured adminSendOk : Bool)
    (store : Store) (message : TgMessage) : ContactResult :=
  let user := message.from_user
  match message.contact with
  | some contact =>
    if contact.user_id == user.id then
      match dictPop store user.id with
      | (some original_join_request, store1) =>
        if approveOk then
          if successReplyOk then
            { store := store1
              outcome := .Approved
              approveCalls := [original_join_request]
              approveSucceeded := true
              successReplySent := true
              apologyReplySent := false
              adminNotified := adminConfigured && adminSendOk }
          else
            { store := store1
              outcome := .ApprovalFailed
              approveCalls := [original_join_request]
              approveSucceeded := true
              successReplySent := false
              apologyReplySent := true
              adminNotified := false }
        else
          { store := store1
            outcome := .ApprovalFailed
            approveCalls := [original_join_request]
            approveSucceeded := false
            successReplySent := false
            apologyReplySent := true
            adminNotified := false }
      | (none, _) =>
        { store := store
          outcome := .NoPendingRequest
          approveCalls := []
          approveSucceeded := false
          successReplySent := false
          apologyReplySent := false
          adminNotified := false }
    else
      { store := store
        outcome := .InvalidContact
        approveCalls := []
        approveSucceeded := false
        successReplySent := false
        apologyReplySent := false
        adminNotified := false }
  | none =>
    { store := store
      outcome := .InvalidContact
      approveCalls := []
      approveSucceeded := false
      successReplySent := false
      apologyReplySent := false
      adminNotified := false }

/-- Python `str.replace` restricted to a single-character pattern, which is
the only form the escaping code uses: every occurrence of the character `c`
is replaced by `rep`. -/
def replaceChar (s : List Char) (c : Char) (rep : List Char) : List Char :=
  s.flatMap (fun d => if d == c then rep else [d])

/-- The escaping applied to `group_name` before it is interpolated into the
admin audit message: the chain of `str.replace` calls in source order,
including the duplicated escaping of the dot. -/
def escaped_group_name (group_name : String) : String :=
  String.mk
    ([('_', "\\_"), ('*', "\\*"), ('[', "\\["), ('\x60', "\\\x60"),
      ('.', "\\."), ('!', "\\!"), ('(', "\\("), (')', "\\)"),
      ('-', "\\-"), ('~', "\\~"), ('>', "\\>"), ('#', "\\#"),
      ('+', "\\+"), ('=', "\\="), ('|', "\\|"), ('\x7b', "\\\x7b"),
      ('\x7d', "\\\x7d"), ('.', "\\.")].foldl
      (fun s pr => replaceChar s pr.1 pr.2.data) group_name.data)

/-- The escaping applied to `user.full_name` before it is interpolated into
the admin audit message: only underscore and asterisk are replaced. -/
def escaped_user_full_name (full_name : String) : String :=
  String.mk
    (replaceChar (replaceChar full_name.data '_' "\\_".data) '*' "\\*".data)

/-- The characters the MarkdownV2 dialect requires to be escaped in text
(per the Telegram Bot API formatting rules the code's comment refers to). -/
def mdv2_special_chars : List Char :=
  ['_', '*', '[', ']', '(', ')', '~', '\x60', '>', '#', '+', '-', '=', '|',
   '\x7b', '\x7d', '.', '!']

/-- An inbound Telegram update as the webhook sees it after JSON parsing. -/
structure TgUpdate where
  raw : String
deriving DecidableEq, Repr

/-- An HTTP response: status code, body text, and whether the body was
produced by `jsonify` (a JSON body) or is a plain string. -/
structure HttpResponse where
  status : Nat
  body : String
  jsonBody : Bool
deriving DecidableEq, Repr

/-- The `/webhook` POST route: `parsed` is the result of decoding and
`json.loads`-parsing the request body (`none` when parsing raises
`JSONDecodeError`). On success the update is enqueued and
`200 {"status": "ok"}` is returned; on parse failure a 400 JSON error body
is returned and the queue is untouched. -/
def webhook (parsed : Option TgUpdate) (update_queue : List TgUpdate) :
    HttpResponse × List TgUpdate :=
  match parsed with
  | some u =>
    ({ status := 200, body := "\x7b\"status\": \"ok\"\x7d", jsonBody := true },
     update_queue ++ [u])
  | none =>
    ({ status := 400,
       body := "\x7b\"status\": \"error\", \"message\": \"Invalid JSON payload\"\x7d",
       jsonBody := true },
     update_queue)

/-- The `/` GET route: a plain-text liveness string with status 200. -/
def root_route : HttpResponse :=
  { status := 200
    body := "Telegram Bot Webhook Listener is Live and Operational!"
    jsonBody := false }

/-! Lemmas about the Python-dict operations. -/

theorem dictContains_eq_isSome_dictGet (s : Store) (k : Int) :
    dictContains s k = (dictGet s k).isSome := by
  induction s with
  | nil => rfl
  | cons a t ih =>
    by_cases h : a.1 = k
    · simp [dictContains, dictGet, List.any_cons, List.find?_cons, h]
    · simp only [dictContains, dictGet, List.any_cons, List.find?_cons] at *
      have hb : (a.1 == k) = false := by simpa using h
      simp [hb, ih]

theorem keys_dictSet_of_contains (s : Store) (k : Int) (v : ChatJoinRequest)
    (h : dictContains s k = true) :
    (dictSet s k v).map Prod.fst = s.map Prod.fst := by
  have h' : (s.any fun p => p.1 == k) = true := h
  unfold dictSet
  rw [if_pos h', List.map_map]
  apply List.map_congr_left
  intro p _
  by_cases hp : p.1 = k
  · simp [Function.comp, hp]
  · simp [Function.comp, hp]

theorem keys_dictSet_of_not_contains (s : Store) (k : Int) (v : ChatJoinRequest)
    (h : dictContains s k = false) :
    (dictSet s k v).map Prod.fst = s.map Prod.fst ++ [k] := by
  have h' : (s.any fun p => p.1 == k) = false := h
  unfold dictSet
  rw [if_neg (by simp [h'])]
  simp

theorem not_mem_keys_of_not_contains (s : Store) (k : Int)
    (h : dictContains s k = false) :
    k ∉ s.map Prod.fst := by
  intro hmem
  obtain ⟨p, hp, hpk⟩ := List.mem_map.1 hmem
  have hc : dictContains s k = true := by
    simp only [dictContains, List.any_eq_true]
    exact ⟨p, hp, by simpa using hpk⟩
  rw [h] at hc
  exact Bool.false_ne_true hc

theorem nodup_keys_dictSet (s : Store) (k : Int) (v : ChatJoinRequest)
    (h : (s.map Prod.fst).Nodup) :
    ((dictSet s k v).map Prod.fst).Nodup := by
  by_cases hc : dictContains s k = true
  · rw [keys_dictSet_of_contains s k v hc]
    exact h
  · have hc' : dictContains s k = false := by
      cases hcc : dictContains s k
      · rfl
      · exact absurd hcc hc
    rw [keys_dictSet_of_not_contains s k v hc']
    have hk : k ∉ s.map Prod.fst := not_mem_keys_of_not_contains s k hc'
    simp [List.nodup_append, h, hk]

theorem nodup_keys_dictDel (s : Store) (k : Int)
    (h : (s.map Prod.fst).Nodup) :
    ((dictDel s k).map Prod.fst).Nodup := by
  exact ((List.filter_sublist s).map Prod.fst).nodup h

theorem countKey_eq_zero_of_not_mem (s : Store) (k : Int)
    (h : k ∉ s.map Prod.fst) : countKey s k = 0 := by
  induction s with
  | nil => rfl
  | cons a t ih =>
    simp only [List.map_cons, List.mem_cons, not_or] at h
    have hb : (a.1 == k) = false := by simpa using fun hk => h.1 hk.symm
    simp only [countKey, List.filter_cons, hb]
    exact ih h.2

theorem countKey_le_one_of_nodup (s : Store) (k : Int)
    (h : (s.map Prod.fst).Nodup) : countKey s k ≤ 1 := by
  induction s with
  | nil => exact Nat.zero_le 1
  | cons a t ih =>
    simp only [List.map_cons, List.nodup_cons] at h
    by_cases ha : a.1 = k
    · have hz : countKey t k = 0 :=
        countKey_eq_zero_of_not_mem t k (ha ▸ h.1)
      simp only [countKey] at hz ⊢
      simp [List.filter_cons, ha, hz]
    · have hb : (a.1 == k) = false := by simpa using ha
      simp only [countKey, List.filter_cons, hb]
      exact ih h.2

theorem length_dictSet_of_contains (s : Store) (k : Int) (v : ChatJoinRequest)
    (h : dictContains s k = true) :
    (dictSet s k v).length = s.length := by
  have h' : (s.any fun p => p.1 == k) = true := h
  unfold dictSet
  rw [if_pos h', List.length_map]

theorem length_dictDel_le (s : Store) (k : Int) :
    (dictDel s k).length ≤ s.length :=
  List.length_filter_le _ s

theorem find?_dictSet_replaced (s : Store) (k : Int) (v : ChatJoinRequest)
    (h : s.any (fun p => p.1 == k) = true) :
    (s.map (fun p => if p.1 == k then (k, v) else p)).find? (fun p => p.1 == k)
      = some (k, v) := by
  induction s with
  | nil => simp at h
  | cons a t ih =>
    by_cases ha : a.1 = k
    · simp [List.find?_cons, ha]
    · have hb : (a.1 == k) = false := by simpa using ha
      simp only [List.any_cons, hb, Bool.false_or] at h
      simp only [List.map_cons, List.find?_cons, hb]
      simp only [Bool.false_eq_true, if_false, List.find?_cons, hb]
      exact ih h

theorem find?_append_of_none {p : Int × ChatJoinRequest → Bool} (s t : Store)
    (h : s.find? p = none) : (s ++ t).find? p = t.find? p := by
  induction s with
  | nil => rfl
  | cons a u ih =>
    by_cases ha : p a = true
    · simp [List.find?_cons, ha] at h
    · have hb : p a = false := by
        cases hpa : p a
        · rfl
        · exact absurd hpa ha
      simp only [List.find?_cons, hb] at h
      simp only [List.cons_append, List.find?_cons, hb]
      exact ih h

theorem dictGet_dictSet_self (s : Store) (k : Int) (v : ChatJoinRequest) :
    dictGet (dictSet s k v) k = some v := by
  by_cases hc : s.any (fun p => p.1 == k) = true
  · unfold dictGet dictSet
    rw [if_pos hc, find?_dictSet_replaced s k v hc]
    rfl
  · have hn : s.find? (fun p => p.1 == k) = none := by
      rw [List.find?_eq_none]
      intro x hx hxk
      exact hc (by rw [List.any_eq_true]; exact ⟨x, hx, hxk⟩)
    unfold dictGet dictSet
    rw [if_neg hc, find?_append_of_none s _ hn]
    have : List.find? (fun p => p.1 == k) [(k, v)] = some (k, v) := by
      simp [List.find?_cons]
    rw [this]
    rfl

theorem dictContains_dictSet_self (s : Store) (k : Int) (v : ChatJoinRequest) :
    dictContains (dictSet s k v) k = true := by
  rw [dictContains_eq_isSome_dictGet, dictGet_dictSet_self]
  rfl

theorem dictGet_dictDel_self (s : Store) (k : Int) :
    dictGet (dictDel s k) k = none := by
  have hn : (dictDel s k).find? (fun p => p.1 == k) = none := by
    rw [List.find?_eq_none]
    intro x hx
    unfold dictDel at hx
    rw [List.mem_filter] at hx
    simpa using hx.2
  unfold dictGet
  rw [hn]
  rfl

theorem dictPop_of_dictGet_some (s : Store) (k : Int) (v : ChatJoinRequest)
    (h : dictGet s k = some v) : dictPop s k = (some v, dictDel s k) := by
  unfold dictGet at h
  unfold dictPop
  cases hf : s.find? (fun p => p.1 == k) with
  | none => rw [hf] at h; simp at h
  | some p =>
    rw [hf] at h
    simp at h
    simp [h]

theorem dictPop_of_dictGet_none (s : Store) (k : Int)
    (h : dictGet s k = none) : dictPop s k = (none, s) := by
  unfold dictGet at h
  unfold dictPop
  cases hf : s.find? (fun p => p.1 == k) with
  | none => rfl
  | some p => rw [hf] at h; simp at h

/-! Unfolding lemmas for `handle_contact_shared`, one per branch of the
contact-validation / pending-lookup logic. -/

theorem handle_contact_shared_valid_pending
    (a r ac as : Bool) (store : Store) (msg : TgMessage) (c : TgContact)
    (orig : ChatJoinRequest)
    (hc : msg.contact = some c) (hid : c.user_id = msg.from_user.id)
    (hpend : dictGet store msg.from_user.id = some orig) :
    handle_contact_shared a r ac as store msg =
      if a then
        if r then
          { store := dictDel store msg.from_user.id
            outcome := .Approved
            approveCalls := [orig]
            approveSucceeded := true
            successReplySent := true
            apologyReplySent := false
            adminNotified := ac && as }
        else
          { store := dictDel store msg.from_user.id
            outcome := .ApprovalFailed
            approveCalls := [orig]
            approveSucceeded := true
            successReplySent := false
            apologyReplySent := true
            adminNotified := false }
      else
        { store := dictDel store msg.from_user.id
          outcome := .ApprovalFailed
          approveCalls := [orig]
          approveSucceeded := false
          successReplySent := false
          apologyReplySent := true
          adminNotified := false } := by
  unfold handle_contact_shared
  rw [hc]
  simp only [hid, beq_self_eq_true, if_true]
  rw [dictPop_of_dictGet_some _ _ _ hpend]

theorem handle_contact_shared_valid_no_pending
    (a r ac as : Bool) (store : Store) (msg : TgMessage) (c : TgContact)
    (hc : msg.contact = some c) (hid : c.user_id = msg.from_user.id)
    (hnp : dictGet store msg.from_user.id = none) :
    handle_contact_shared a r ac as store msg =
      { store := store
        outcome := .NoPendingRequest
        approveCalls := []
        approveSucceeded := false
        successReplySent := false
        apologyReplySent := false
        adminNotified := false } := by
  unfold handle_contact_shared
  rw [hc]
  simp only [hid, beq_self_eq_true, if_true]
  rw [dictPop_of_dictGet_none _ _ hnp]

theorem handle_contact_shared_mismatch
    (a r ac as : Bool) (store : Store) (msg : TgMessage) (c : TgContact)
    (hc : msg.contact = some c) (hne : c.user_id ≠ msg.from_user.id) :
    handle_contact_shared a r ac as store msg =
      { store := store
        outcome := .InvalidContact
        approveCalls := []
        approveSucceeded := false
        successReplySent := false
        apologyReplySent := false
        adminNotified := false } := by
  unfold handle_contact_shared
  rw [hc]
  simp [hne]

theorem handle_join_request_sendOk (store : Store) (req : ChatJoinRequest) :
    handle_join_request true store req = dictSet store req.from_user.id req := rfl

theorem handle_join_request_sendFail (store : Store) (req : ChatJoinRequest) :
    handle_join_request false store req =
      dictDel (dictSet store req.from_user.id req) req.from_user.id := by
  unfold handle_join_request
  simp [dictContains_dictSet_self]

theorem hcs_valid_pending_approved
    (ac as : Bool) (store : Store) (msg : TgMessage) (c : TgContact)
    (orig : ChatJoinRequest)
    (hc : msg.contact = some c) (hid : c.user_id = msg.from_user.id)
    (hpend : dictGet store msg.from_user.id = some orig) :
    handle_contact_shared true true ac as store msg =
      { store := dictDel store msg.from_user.id
        outcome := .Approved
        approveCalls := [orig]
        approveSucceeded := true
        successReplySent := true
        apologyReplySent := false
        adminNotified := ac && as } := by
  rw [handle_contact_shared_valid_pending true true ac as store msg c orig hc hid hpend]
  simp

theorem hcs_valid_pending_reply_fail
    (ac as : Bool) (store : Store) (msg : TgMessage) (c : TgContact)
    (orig : ChatJoinRequest)
    (hc : msg.contact = some c) (hid : c.user_id = msg.from_user.id)
    (hpend : dictGet store msg.from_user.id = some orig) :
    handle_contact_shared true false ac as store msg =
      { store := dictDel store msg.from_user.id
        outcome := .ApprovalFailed
        approveCalls := [orig]
        approveSucceeded := true
        successReplySent := false
        apologyReplySent := true
        adminNotified := false } := by
  rw [handle_contact_shared_valid_pending true false ac as store msg c orig hc hid hpend]
  simp

theorem hcs_valid_pending_approve_fail
    (r ac as : Bool) (store : Store) (msg : TgMessage) (c : TgContact)
    (orig : ChatJoinRequest)
    (hc : msg.contact = some c) (hid : c.user_id = msg.from_user.id)
    (hpend : dictGet store msg.from_user.id = some orig) :
    handle_contact_shared false r ac as store msg =
      { store := dictDel store msg.from_user.id
        outcome := .ApprovalFailed
        approveCalls := [orig]
        approveSucceeded := false
        successReplySent := false
        apologyReplySent := true
        adminNotified := false } := by
  rw [handle_contact_shared_valid_pending false r ac as store msg c orig hc hid hpend]
  simp

/-! The claims. -/

/-- Claim C1: at most one pending record per userId. Handling a join
request preserves distinctness of stored user ids, leaves at most one
entry for any user, and for a user who already has a pending record it
never grows the store; when the prompt send succeeds it overwrites the
old record with the newer request context at unchanged store size. -/
theorem join_request_at_most_one_pending
    (sendOk : Bool) (store : Store) (req : ChatJoinRequest) (u : Int)
    (h : (store.map Prod.fst).Nodup) :
    ((handle_join_request sendOk store req).map Prod.fst).Nodup ∧
    countKey (handle_join_request sendOk store req) u ≤ 1 ∧
    (dictContains store req.from_user.id = true →
      (handle_join_request sendOk store req).length ≤ store.length ∧
      (sendOk = true →
        dictGet (handle_join_request sendOk store req) req.from_user.id = some req ∧
        (handle_join_request sendOk store req).length = store.length)) := by
  cases sendOk with
  | true =>
    rw [handle_join_request_sendOk]
    have h1 := nodup_keys_dictSet store req.from_user.id req h
    exact ⟨h1, countKey_le_one_of_nodup _ _ h1, fun hcont =>
      ⟨le_of_eq (length_dictSet_of_contains _ _ _ hcont), fun _ =>
        ⟨dictGet_dictSet_self _ _ _, length_dictSet_of_contains _ _ _ hcont⟩⟩⟩
  | false =>
    rw [handle_join_request_sendFail]
    have h1 := nodup_keys_dictDel _ req.from_user.id
      (nodup_keys_dictSet store req.from_user.id req h)
    refine ⟨h1, countKey_le_one_of_nodup _ _ h1, fun hcont =>
      ⟨?_, fun hf => absurd hf Bool.false_ne_true⟩⟩
    exact le_trans (length_dictDel_le _ _)
      (le_of_eq (length_dictSet_of_contains _ _ _ hcont))

/-- Witness for C1: duplicate join request for user 42 while one is
already pending overwrites it and keeps a single entry. -/
theorem join_request_at_most_one_pending_witness :
    (([((42 : Int),
        { from_user := { id := 42, full_name := "Bob", username := none },
          chat := { id := -100, title := "Acme" } })] : Store).map Prod.fst).Nodup ∧
    (((handle_join_request true
        [((42 : Int),
          { from_user := { id := 42, full_name := "Bob", username := none },
            chat := { id := -100, title := "Acme" } })]
        { from_user := { id := 42, full_name := "Bob", username := none },
          chat := { id := -200, title := "Beta" } }).map Prod.fst).Nodup ∧
      countKey (handle_join_request true
        [((42 : Int),
          { from_user := { id := 42, full_name := "Bob", username := none },
            chat := { id := -100, title := "Acme" } })]
        { from_user := { id := 42, full_name := "Bob", username := none },
          chat := { id := -200, title := "Beta" } }) 42 ≤ 1 ∧
      (dictContains
          [((42 : Int),
            { from_user := { id := 42, full_name := "Bob", username := none },
              chat := { id := -100, title := "Acme" } })]
          ({ from_user := { id := 42, full_name := "Bob", username := none },
             chat := { id := -200, title := "Beta" } } : ChatJoinRequest).from_user.id = true →
        (handle_join_request true
          [((42 : Int),
            { from_user := { id := 42, full_name := "Bob", username := none },
              chat := { id := -100, title := "Acme" } })]
          { from_user := { id := 42, full_name := "Bob", username := none },
            chat := { id := -200, title := "Beta" } }).length ≤ 1 ∧
        (true = true →
          dictGet (handle_join_request true
            [((42 : Int),
              { from_user := { id := 42, full_name := "Bob", username := none },
                chat := { id := -100, title := "Acme" } })]
            { from_user := { id := 42, full_name := "Bob", username := none },
              chat := { id := -200, title := "Beta" } })
            ({ from_user := { id := 42, full_name := "Bob", username := none },
               chat := { id := -200, title := "Beta" } } : ChatJoinRequest).from_user.id
            = some { from_user := { id := 42, full_name := "Bob", username := none },
                     chat := { id := -200, title := "Beta" } } ∧
          (handle_join_request true
            [((42 : Int),
              { from_user := { id := 42, full_name := "Bob", username := none },
                chat := { id := -100, title := "Acme" } })]
            { from_user := { id := 42, full_name := "Bob", username := none },
              chat := { id := -200, title := "Beta" } }).length = 1))) :=
  ⟨by decide,
   join_request_at_most_one_pending true
     [((42 : Int),
       { from_user := { id := 42, full_name := "Bob", username := none },
         chat := { id := -100, title := "Acme" } })]
     { from_user := { id := 42, full_name := "Bob", username := none },
       chat := { id := -200, title := "Beta" } } 42 (by decide)⟩

/-- Claim C2: a contact-share whose contact subject id differs from the
sender's id yields InvalidContact, leaves the store untouched, and never
invokes approve(). -/
theorem invalid_contact_never_approves
    (a r ac as : Bool) (store : Store) (msg : TgMessage) (c : TgContact)
    (hc : msg.contact = some c) (hne : c.user_id ≠ msg.from_user.id) :
    (handle_contact_shared a r ac as store msg).outcome = .InvalidContact ∧
    (handle_contact_shared a r ac as store msg).store = store ∧
    (handle_contact_shared a r ac as store msg).approveCalls = [] ∧
    (handle_contact_shared a r ac as store msg).approveSucceeded = false := by
  rw [handle_contact_shared_mismatch a r ac as store msg c hc hne]
  exact ⟨rfl, rfl, rfl, rfl⟩

/-- Witness for C2, Scenario C: with a record for user 42 pending, a
contact-share from user 42 whose contact subject is 99 yields
InvalidContact and leaves the record in place. -/
theorem invalid_contact_never_approves_witness :
    ({ from_user := { id := 42, full_name := "Bob", username := none },
       contact := some { user_id := 99, phone_number := "+15551234567" } }
        : TgMessage).contact
      = some { user_id := 99, phone_number := "+15551234567" } ∧
    ({ user_id := 99, phone_number := "+15551234567" } : TgContact).user_id
      ≠ ({ from_user := { id := 42, full_name := "Bob", username := none },
           contact := some { user_id := 99, phone_number := "+15551234567" } }
          : TgMessage).from_user.id ∧
    ((handle_contact_shared true true true true
        [((42 : Int),
          { from_user := { id := 42, full_name := "Bob", username := none },
            chat := { id := -100, title := "Acme" } })]
        { from_user := { id := 42, full_name := "Bob", username := none },
          contact := some { user_id := 99, phone_number := "+15551234567" } }).outcome
        = .InvalidContact ∧
      (handle_contact_shared true true true true
        [((42 : Int),
          { from_user := { id := 42, full_name := "Bob", username := none },
            chat := { id := -100, title := "Acme" } })]
        { from_user := { id := 42, full_name := "Bob", username := none },
          contact := some { user_id := 99, phone_number := "+15551234567" } }).store
        = [((42 : Int),
            { from_user := { id := 42, full_name := "Bob", username := none },
              chat := { id := -100, title := "Acme" } })] ∧
      (handle_contact_shared true true true true
        [((42 : Int),
          { from_user := { id := 42, full_name := "Bob", username := none },
            chat := { id := -100, title := "Acme" } })]
        { from_user := { id := 42, full_name := "Bob", username := none },
          contact := some { user_id := 99, phone_number := "+15551234567" } }).approveCalls
        = [] ∧
      (handle_contact_shared true true true true
        [((42 : Int),
          { from_user := { id := 42, full_name := "Bob", username := none },
            chat := { id := -100, title := "Acme" } })]
        { from_user := { id := 42, full_name := "Bob", username := none },
          contact := some { user_id := 99, phone_number := "+15551234567" } }).approveSucceeded
        = false) :=
  ⟨rfl, by decide,
   invalid_contact_never_approves true true true true
     [((42 : Int),
       { from_user := { id := 42, full_name := "Bob", username := none },
         chat := { id := -100, title := "Acme" } })]
     { from_user := { id := 42, full_name := "Bob", username := none },
       contact := some { user_id := 99, phone_number := "+15551234567" } }
     { user_id := 99, phone_number := "+15551234567" } rfl (by decide)⟩

/-- Claim C3: a valid contact-share (subject equals sender) by a user with
a pending record removes the record, invokes approve() exactly once on the
original request handle, yields Approved when approve() and the success
reply both succeed, and a subsequent valid contact-share by that user
yields NoPendingRequest. -/
theorem valid_contact_approval_consumes_record
    (ac as a2 r2 ac2 as2 : Bool) (store : Store) (msg msg2 : TgMessage)
    (c c2 : TgContact) (orig : ChatJoinRequest)
    (hc : msg.contact = some c) (hid : c.user_id = msg.from_user.id)
    (hpend : dictGet store msg.from_user.id = some orig)
    (hc2 : msg2.contact = some c2) (hid2 : c2.user_id = msg2.from_user.id)
    (hu2 : msg2.from_user.id = msg.from_user.id) :
    (handle_contact_shared true true ac as store msg).outcome = .Approved ∧
    (handle_contact_shared true true ac as store msg).approveCalls = [orig] ∧
    dictGet (handle_contact_shared true true ac as store msg).store
      msg.from_user.id = none ∧
    (handle_contact_shared a2 r2 ac2 as2
        (handle_contact_shared true true ac as store msg).store msg2).outcome
      = .NoPendingRequest := by
  rw [hcs_valid_pending_approved ac as store msg c orig hc hid hpend]
  refine ⟨rfl, rfl, dictGet_dictDel_self _ _, ?_⟩
  rw [handle_contact_shared_valid_no_pending a2 r2 ac2 as2 _ msg2 c2 hc2 hid2
    (by rw [hu2]; exact dictGet_dictDel_self _ _)]

/-- Witness for C3, Scenario B: user 42 shares their own contact while
{42: Acme} is pending; the outcome is Approved, approve() is invoked once
on the Acme request, the store is emptied, and a repeat contact-share
yields NoPendingRequest. -/
theorem valid_contact_approval_consumes_record_witness :
    ({ from_user := { id := 42, full_name := "Bob", username := none },
       contact := some { user_id := 42, phone_number := "+15551234567" } }
        : TgMessage).contact
      = some { user_id := 42, phone_number := "+15551234567" } ∧
    dictGet
      [((42 : Int),
        { from_user := { id := 42, full_name := "Bob", username := none },
          chat := { id := -100, title := "Acme" } })]
      ({ from_user := { id := 42, full_name := "Bob", username := none },
         contact := some { user_id := 42, phone_number := "+15551234567" } }
          : TgMessage).from_user.id
      = some { from_user := { id := 42, full_name := "Bob", username := none },
               chat := { id := -100, title := "Acme" } } ∧
    ((handle_contact_shared true true true true
        [((42 : Int),
          { from_user := { id := 42, full_name := "Bob", username := none },
            chat := { id := -100, title := "Acme" } })]
        { from_user := { id := 42, full_name := "Bob", username := none },
          contact := some { user_id := 42, phone_number := "+15551234567" } }).outcome
        = .Approved ∧
      (handle_contact_shared true true true true
        [((42 : Int),
          { from_user := { id := 42, full_name := "Bob", username := none },
            chat := { id := -100, title := "Acme" } })]
        { from_user := { id := 42, full_name := "Bob", username := none },
          contact := some { user_id := 42, phone_number := "+15551234567" } }).approveCalls
        = [{ from_user := { id := 42, full_name := "Bob", username := none },
             chat := { id := -100, title := "Acme" } }] ∧
      dictGet (handle_contact_shared true true true true
        [((42 : Int),
          { from_user := { id := 42, full_name := "Bob", username := none },
            chat := { id := -100, title := "Acme" } })]
        { from_user := { id := 42, full_name := "Bob", username := none },
          contact := some { user_id := 42, phone_number := "+15551234567" } }).store
        ({ from_user := { id := 42, full_name := "Bob", username := none },
           contact := some { user_id := 42, phone_number := "+15551234567" } }
            : TgMessage).from_user.id = none ∧
      (handle_contact_shared true true true true
        (handle_contact_shared true true true true
          [((42 : Int),
            { from_user := { id := 42, full_name := "Bob", username := none },
              chat := { id := -100, title := "Acme" } })]
          { from_user := { id := 42, full_name := "Bob", username := none },
            contact := some { user_id := 42, phone_number := "+15551234567" } }).store
        { from_user := { id := 42, full_name := "Bob", username := none },
          contact := some { user_id := 42, phone_number := "+15551234567" } }).outcome
        = .NoPendingRequest) :=
  ⟨rfl, by decide,
   valid_contact_approval_consumes_record true true true true true true
     [((42 : Int),
       { from_user := { id := 42, full_name := "Bob", username := none },
         chat := { id := -100, title := "Acme" } })]
     { from_user := { id := 42, full_name := "Bob", username := none },
       contact := some { user_id := 42, phone_number := "+15551234567" } }
     { from_user := { id := 42, full_name := "Bob", username := none },
       contact := some { user_id := 42, phone_number := "+15551234567" } }
     { user_id := 42, phone_number := "+15551234567" }
     { user_id := 42, phone_number := "+15551234567" }
     { from_user := { id := 42, full_name := "Bob", username := none },
       chat := { id := -100, title := "Acme" } }
     rfl (by decide) (by decide) rfl (by decide) rfl⟩

/-- Claim C4: when approve() fails on a valid contact-share, the outcome is
ApprovalFailed, approve() was attempted once, the popped record is not
reinserted (the user's state is NoRequest), and a subsequent valid
contact-share yields NoPendingRequest. -/
theorem approval_failure_no_rollback
    (r ac as a2 r2 ac2 as2 : Bool) (store : Store) (msg msg2 : TgMessage)
    (c c2 : TgContact) (orig : ChatJoinRequest)
    (hc : msg.contact = some c) (hid : c.user_id = msg.from_user.id)
    (hpend : dictGet store msg.from_user.id = some orig)
    (hc2 : msg2.contact = some c2) (hid2 : c2.user_id = msg2.from_user.id)
    (hu2 : msg2.from_user.id = msg.from_user.id) :
    (handle_contact_shared false r ac as store msg).outcome = .ApprovalFailed ∧
    (handle_contact_shared false r ac as store msg).approveCalls = [orig] ∧
    dictGet (handle_contact_shared false r ac as store msg).store
      msg.from_user.id = none ∧
    (handle_contact_shared a2 r2 ac2 as2
        (handle_contact_shared false r ac as store msg).store msg2).outcome
      = .NoPendingRequest := by
  rw [hcs_valid_pending_approve_fail r ac as store msg c orig hc hid hpend]
  refine ⟨rfl, rfl, dictGet_dictDel_self _ _, ?_⟩
  rw [handle_contact_shared_valid_no_pending a2 r2 ac2 as2 _ msg2 c2 hc2 hid2
    (by rw [hu2]; exact dictGet_dictDel_self _ _)]

/-- Witness for C4: approve() fails for user 42's valid contact-share; the
record stays removed and a retry yields NoPendingRequest. -/
theorem approval_failure_no_rollback_witness :
    ({ from_user := { id := 42, full_name := "Bob", username := none },
       contact := some { user_id := 42, phone_number := "+15551234567" } }
        : TgMessage).contact
      = some { user_id := 42, phone_number := "+15551234567" } ∧
    dictGet
      [((42 : Int),
        { from_user := { id := 42, full_name := "Bob", username := none },
          chat := { id := -100, title := "Acme" } })]
      ({ from_user := { id := 42, full_name := "Bob", username := none },
         contact := some { user_id := 42, phone_number := "+15551234567" } }
          : TgMessage).from_user.id
      = some { from_user := { id := 42, full_name := "Bob", username := none },
               chat := { id := -100, title := "Acme" } } ∧
    ((handle_contact_shared false true true true
        [((42 : Int),
          { from_user := { id := 42, full_name := "Bob", username := none },
            chat := { id := -100, title := "Acme" } })]
        { from_user := { id := 42, full_name := "Bob", username := none },
          contact := some { user_id := 42, phone_number := "+15551234567" } }).outcome
        = .ApprovalFailed ∧
      (handle_contact_shared false true true true
        [((42 : Int),
          { from_user := { id := 42, full_name := "Bob", username := none },
            chat := { id := -100, title := "Acme" } })]
        { from_user := { id := 42, full_name := "Bob", username := none },
          contact := some { user_id := 42, phone_number := "+15551234567" } }).approveCalls
        = [{ from_user := { id := 42, full_name := "Bob", username := none },
             chat := { id := -100, title := "Acme" } }] ∧
      dictGet (handle_contact_shared false true true true
        [((42 : Int),
          { from_user := { id := 42, full_name := "Bob", username := none },
            chat := { id := -100, title := "Acme" } })]
        { from_user := { id := 42, full_name := "Bob", username := none },
          contact := some { user_id := 42, phone_number := "+15551234567" } }).store
        ({ from_user := { id := 42, full_name := "Bob", username := none },
           contact := some { user_id := 42, phone_number := "+15551234567" } }
            : TgMessage).from_user.id = none ∧
      (handle_contact_shared true true true true
        (handle_contact_shared false true true true
          [((42 : Int),
            { from_user := { id := 42, full_name := "Bob", username := none },
              chat := { id := -100, title := "Acme" } })]
          { from_user := { id := 42, full_name := "Bob", username := none },
            contact := some { user_id := 42, phone_number := "+15551234567" } }).store
        { from_user := { id := 42, full_name := "Bob", username := none },
          contact := some { user_id := 42, phone_number := "+15551234567" } }).outcome
        = .NoPendingRequest) :=
  ⟨rfl, by decide,
   approval_failure_no_rollback true true true true true true true
     [((42 : Int),
       { from_user := { id := 42, full_name := "Bob", username := none },
         chat := { id := -100, title := "Acme" } })]
     { from_user := { id := 42, full_name := "Bob", username := none },
       contact := some { user_id := 42, phone_number := "+15551234567" } }
     { from_user := { id := 42, full_name := "Bob", username := none },
       contact := some { user_id := 42, phone_number := "+15551234567" } }
     { user_id := 42, phone_number := "+15551234567" }
     { user_id := 42, phone_number := "+15551234567" }
     { from_user := { id := 42, full_name := "Bob", username := none },
       chat := { id := -100, title := "Acme" } }
     rfl (by decide) (by decide) rfl (by decide) rfl⟩

/-- Claim C5: when the verification-prompt send fails, the just-created
pending record is deleted: the resulting store holds no record for that
user, and Scenario E starting from an empty store ends with an empty
store. -/
theorem prompt_failure_discards_record (store : Store) (req : ChatJoinRequest) :
    dictGet (handle_join_request false store req) req.from_user.id = none ∧
    handle_join_request false ([] : Store) req = [] := by
  constructor
  · rw [handle_join_request_sendFail]
    exact dictGet_dictDel_self _ _
  · rw [handle_join_request_sendFail]
    simp [dictSet, dictDel]

/-- Witness for C5, Scenario E: join-request for user 42 with failing
prompt delivery leaves the store empty. -/
theorem prompt_failure_discards_record_witness :
    dictGet (handle_join_request false ([] : Store)
      { from_user := { id := 42, full_name := "Bob", username := none },
        chat := { id := -100, title := "Acme" } })
      ({ from_user := { id := 42, full_name := "Bob", username := none },
         chat := { id := -100, title := "Acme" } } : ChatJoinRequest).from_user.id
      = none ∧
    handle_join_request false ([] : Store)
      { from_user := { id := 42, full_name := "Bob", username := none },
        chat := { id := -100, title := "Acme" } } = [] :=
  prompt_failure_discards_record []
    { from_user := { id := 42, full_name := "Bob", username := none },
      chat := { id := -100, title := "Acme" } }

/-- Claim C6 counterexample: with an empty store (user 7 is in NoRequest),
a contact-share whose contact subject (9) differs from the sender (7)
yields InvalidContact, not NoPendingRequest, so the claim as stated is
false for this contact-share event. -/
theorem no_pending_invalid_contact_cex :
    (handle_contact_shared true true true true ([] : Store)
        { from_user := { id := 7, full_name := "Eve", username := none },
          contact := some { user_id := 9, phone_number := "+15550100" } }).outcome
      ≠ .NoPendingRequest ∧
    (handle_contact_shared true true true true ([] : Store)
        { from_user := { id := 7, full_name := "Eve", username := none },
          contact := some { user_id := 9, phone_number := "+15550100" } }).outcome
      = .InvalidContact :=
  ⟨by decide, by decide⟩

/-- Claim C6 (amended): a contact-share whose contact is present and
belongs to the sender, by a user with no pending record, yields
NoPendingRequest, invokes no approve(), and leaves the store unchanged. -/
theorem valid_contact_no_pending_outcome
    (a r ac as : Bool) (store : Store) (msg : TgMessage) (c : TgContact)
    (hc : msg.contact = some c) (hid : c.user_id = msg.from_user.id)
    (hnp : dictGet store msg.from_user.id = none) :
    (handle_contact_shared a r ac as store msg).outcome = .NoPendingRequest ∧
    (handle_contact_shared a r ac as store msg).store = store ∧
    (handle_contact_shared a r ac as store msg).approveCalls = [] ∧
    (handle_contact_shared a r ac as store msg).approveSucceeded = false := by
  rw [handle_contact_shared_valid_no_pending a r ac as store msg c hc hid hnp]
  exact ⟨rfl, rfl, rfl, rfl⟩

/-- Witness for amended C6, Scenario D: user 7 shares their own contact
with an empty store; the outcome is NoPendingRequest and no approve()
happens. -/
theorem valid_contact_no_pending_outcome_witness :
    ({ from_user := { id := 7, full_name := "Eve", username := none },
       contact := some { user_id := 7, phone_number := "+15550100" } }
        : TgMessage).contact
      = some { user_id := 7, phone_number := "+15550100" } ∧
    dictGet ([] : Store)
      ({ from_user := { id := 7, full_name := "Eve", username := none },
         contact := some { user_id := 7, phone_number := "+15550100" } }
          : TgMessage).from_user.id = none ∧
    ((handle_contact_shared true true true true ([] : Store)
        { from_user := { id := 7, full_name := "Eve", username := none },
          contact := some { user_id := 7, phone_number := "+15550100" } }).outcome
        = .NoPendingRequest ∧
      (handle_contact_shared true true true true ([] : Store)
        { from_user := { id := 7, full_name := "Eve", username := none },
          contact := some { user_id := 7, phone_number := "+15550100" } }).store
        = [] ∧
      (handle_contact_shared true true true true ([] : Store)
        { from_user := { id := 7, full_name := "Eve", username := none },
          contact := some { user_id := 7, phone_number := "+15550100" } }).approveCalls
        = [] ∧
      (handle_contact_shared true true true true ([] : Store)
        { from_user := { id := 7, full_name := "Eve", username := none },
          contact := some { user_id := 7, phone_number := "+15550100" } }).approveSucceeded
        = false) :=
  ⟨rfl, rfl,
   valid_contact_no_pending_outcome true true true true ([] : Store)
     { from_user := { id := 7, full_name := "Eve", username := none },
       contact := some { user_id := 7, phone_number := "+15550100" } }
     { user_id := 7, phone_number := "+15550100" } rfl (by decide) rfl⟩

/-- Claim C7: in the Approved path, approve() and the user success reply
happen and the record stays consumed for every combination of admin-sink
configuration and admin-send success: the conclusion holds for all values
of `ac` (admin sink configured) and `as` (admin send succeeds), so neither
a missing sink nor a failed audit message undoes or blocks the approval. -/
theorem admin_notify_never_blocks_approval
    (ac as : Bool) (store : Store) (msg : TgMessage) (c : TgContact)
    (orig : ChatJoinRequest)
    (hc : msg.contact = some c) (hid : c.user_id = msg.from_user.id)
    (hpend : dictGet store msg.from_user.id = some orig) :
    (handle_contact_shared true true ac as store msg).outcome = .Approved ∧
    (handle_contact_shared true true ac as store msg).approveSucceeded = true ∧
    (handle_contact_shared true true ac as store msg).successReplySent = true ∧
    (handle_contact_shared true true ac as store msg).approveCalls = [orig] ∧
    (handle_contact_shared true true ac as store msg).store
      = dictDel store msg.from_user.id := by
  rw [hcs_valid_pending_approved ac as store msg c orig hc hid hpend]
  exact ⟨rfl, rfl, rfl, rfl, rfl⟩

/-- Witness for C7: the admin sink is configured but the audit send fails
(`as = false`); the approval and the success reply still happen. -/
theorem admin_notify_never_blocks_approval_witness :
    ({ from_user := { id := 42, full_name := "Bob", username := none },
       contact := some { user_id := 42, phone_number := "+15551234567" } }
        : TgMessage).contact
      = some { user_id := 42, phone_number := "+15551234567" } ∧
    dictGet
      [((42 : Int),
        { from_user := { id := 42, full_name := "Bob", username := none },
          chat := { id := -100, title := "Acme" } })]
      ({ from_user := { id := 42, full_name := "Bob", username := none },
         contact := some { user_id := 42, phone_number := "+15551234567" } }
          : TgMessage).from_user.id
      = some { from_user := { id := 42, full_name := "Bob", username := none },
               chat := { id := -100, title := "Acme" } } ∧
    ((handle_contact_shared true true true false
        [((42 : Int),
          { from_user := { id := 42, full_name := "Bob", username := none },
            chat := { id := -100, title := "Acme" } })]
        { from_user := { id := 42, full_name := "Bob", username := none },
          contact := some { user_id := 42, phone_number := "+15551234567" } }).outcome
        = .Approved ∧
      (handle_contact_shared true true true false
        [((42 : Int),
          { from_user := { id := 42, full_name := "Bob", username := none },
            chat := { id := -100, title := "Acme" } })]
        { from_user := { id := 42, full_name := "Bob", username := none },
          contact := some { user_id := 42, phone_number := "+15551234567" } }).approveSucceeded
        = true ∧
      (handle_contact_shared true true true false
        [((42 : Int),
          { from_user := { id := 42, full_name := "Bob", username := none },
            chat := { id := -100, title := "Acme" } })]
        { from_user := { id := 42, full_name := "Bob", username := none },
          contact := some { user_id := 42, phone_number := "+15551234567" } }).successReplySent
        = true ∧
      (handle_contact_shared true true true false
        [((42 : Int),
          { from_user := { id := 42, full_name := "Bob", username := none },
            chat := { id := -100, title := "Acme" } })]
        { from_user := { id := 42, full_name := "Bob", username := none },
          contact := some { user_id := 42, phone_number := "+15551234567" } }).approveCalls
        = [{ from_user := { id := 42, full_name := "Bob", username := none },
             chat := { id := -100, title := "Acme" } }] ∧
      (handle_contact_shared true true true false
        [((42 : Int),
          { from_user := { id := 42, full_name := "Bob", username := none },
            chat := { id := -100, title := "Acme" } })]
        { from_user := { id := 42, full_name := "Bob", username := none },
          contact := some { user_id := 42, phone_number := "+15551234567" } }).store
        = dictDel
            [((42 : Int),
              { from_user := { id := 42, full_name := "Bob", username := none },
                chat := { id := -100, title := "Acme" } })]
            ({ from_user := { id := 42, full_name := "Bob", username := none },
               contact := some { user_id := 42, phone_number := "+15551234567" } }
                : TgMessage).from_user.id) :=
  ⟨rfl, by decide,
   admin_notify_never_blocks_approval true false
     [((42 : Int),
       { from_user := { id := 42, full_name := "Bob", username := none },
         chat := { id := -100, title := "Acme" } })]
     { from_user := { id := 42, full_name := "Bob", username := none },
       contact := some { user_id := 42, phone_number := "+15551234567" } }
     { user_id := 42, phone_number := "+15551234567" }
     { from_user := { id := 42, full_name := "Bob", username := none },
       chat := { id := -100, title := "Acme" } }
     rfl (by decide) (by decide)⟩

/-- Claim C8: the webhook POST route returns 200 with the ok JSON body and
enqueues the parsed update; on JSON parse failure it returns a 400 JSON
error body (a non-2xx status) and the queue is unchanged; the root GET
route returns the plain-text liveness string with status 200. -/
theorem http_interface_behaviour :
    (∀ (u : TgUpdate) (q : List TgUpdate),
        webhook (some u) q =
          ({ status := 200, body := "\x7b\"status\": \"ok\"\x7d", jsonBody := true },
           q ++ [u])) ∧
    (∀ q : List TgUpdate,
        webhook none q =
          ({ status := 400,
             body := "\x7b\"status\": \"error\", \"message\": \"Invalid JSON payload\"\x7d",
             jsonBody := true }, q)) ∧
    ¬ (200 ≤ 400 ∧ 400 < 300) ∧
    root_route =
      { status := 200,
        body := "Telegram Bot Webhook Listener is Live and Operational!",
        jsonBody := false } :=
  ⟨fun _ _ => rfl, fun _ => rfl, by decide, rfl⟩

/-- Witness for C8 at a concrete request: a parsed update is enqueued with
a 200 ok response, and a malformed body yields 400 with the queue kept. -/
theorem http_interface_behaviour_witness :
    webhook (some { raw := "upd" }) [] =
      ({ status := 200, body := "\x7b\"status\": \"ok\"\x7d", jsonBody := true },
       [{ raw := "upd" }]) ∧
    webhook none [{ raw := "old" }] =
      ({ status := 400,
         body := "\x7b\"status\": \"error\", \"message\": \"Invalid JSON payload\"\x7d",
         jsonBody := true }, [{ raw := "old" }]) :=
  ⟨http_interface_behaviour.1 { raw := "upd" } [],
   http_interface_behaviour.2.1 [{ raw := "old" }]⟩

/-- Claim C9 is refuted by the code: the escaping applied to the admin
audit message's free-text fields misses MarkdownV2 special characters.
The group-name chain never escapes `]`; the display-name escaping handles
only underscore and asterisk, leaving `.` and `!` (and others) unescaped;
and the duplicated dot replacement turns `.` into backslash-backslash-dot,
i.e. an escaped backslash followed by an unescaped dot. -/
theorem markdownv2_escaping_gap :
    (']' ∈ mdv2_special_chars ∧ escaped_group_name "A]B" = "A]B") ∧
    ('.' ∈ mdv2_special_chars ∧ '!' ∈ mdv2_special_chars ∧
      escaped_user_full_name "John. Doe!" = "John. Doe!") ∧
    escaped_group_name "a.b" = "a\\\\.b" :=
  ⟨⟨by decide, by decide⟩, ⟨by decide, by decide, by decide⟩, by decide⟩

/-- Claim C10: when approve() succeeds but the success reply raises, the
handler falls into the outer except: outcome ApprovalFailed, the apology
is sent instead of the success reply, no admin audit message goes out,
the approval itself already happened, and the record stays removed. -/
theorem success_reply_failure_apology_path
    (ac as : Bool) (store : Store) (msg : TgMessage) (c : TgContact)
    (orig : ChatJoinRequest)
    (hc : msg.contact = some c) (hid : c.user_id = msg.from_user.id)
    (hpend : dictGet store msg.from_user.id = some orig) :
    (handle_contact_shared true false ac as store msg).outcome = .ApprovalFailed ∧
    (handle_contact_shared true false ac as store msg).approveSucceeded = true ∧
    (handle_contact_shared true false ac as store msg).adminNotified = false ∧
    (handle_contact_shared true false ac as store msg).apologyReplySent = true ∧
    (handle_contact_shared true false ac as store msg).successReplySent = false ∧
    dictGet (handle_contact_shared true false ac as store msg).store
      msg.from_user.id = none := by
  rw [hcs_valid_pending_reply_fail ac as store msg c orig hc hid hpend]
  exact ⟨rfl, rfl, rfl, rfl, rfl, dictGet_dictDel_self _ _⟩

/-- Witness for C10: approve() succeeds for user 42 but the success reply
fails; the apology path runs with the admin sink configured and healthy. -/
theorem success_reply_failure_apology_path_witness :
    ({ from_user := { id := 42, full_name := "Bob", username := none },
       contact := some { user_id := 42, phone_number := "+15551234567" } }
        : TgMessage).contact
      = some { user_id := 42, phone_number := "+15551234567" } ∧
    dictGet
      [((42 : Int),
        { from_user := { id := 42, full_name := "Bob", username := none },
          chat := { id := -100, title := "Acme" } })]
      ({ from_user := { id := 42, full_name := "Bob", username := none },
         contact := some { user_id := 42, phone_number := "+15551234567" } }
          : TgMessage).from_user.id
      = some { from_user := { id := 42, full_name := "Bob", username := none },
               chat := { id := -100, title := "Acme" } } ∧
    ((handle_contact_shared true false true true
        [((42 : Int),
          { from_user := { id := 42, full_name := "Bob", username := none },
            chat := { id := -100, title := "Acme" } })]
        { from_user := { id := 42, full_name := "Bob", username := none },
          contact := some { user_id := 42, phone_number := "+15551234567" } }).outcome
        = .ApprovalFailed ∧
      (handle_contact_shared true false true true
        [((42 : Int),
          { from_user := { id := 42, full_name := "Bob", username := none },
            chat := { id := -100, title := "Acme" } })]
        { from_user := { id := 42, full_name := "Bob", username := none },
          contact := some { user_id := 42, phone_number := "+15551234567" } }).approveSucceeded
        = true ∧
      (handle_contact_shared true false true true
        [((42 : Int),
          { from_user := { id := 42, full_name := "Bob", username := none },
            chat := { id := -100, title := "Acme" } })]
        { from_user := { id := 42, full_name := "Bob", username := none },
          contact := some { user_id := 42, phone_number := "+15551234567" } }).adminNotified
        = false ∧
      (handle_contact_shared true false true true
        [((42 : Int),
          { from_user := { id := 42, full_name := "Bob", username := none },
            chat := { id := -100, title := "Acme" } })]
        { from_user := { id := 42, full_name := "Bob", username := none },
          contact := some { user_id := 42, phone_number := "+15551234567" } }).apologyReplySent
        = true ∧
      (handle_contact_shared true false true true
        [((42 : Int),
          { from_user := { id := 42, full_name := "Bob", username := none },
            chat := { id := -100, title := "Acme" } })]
        { from_user := { id := 42, full_name := "Bob", username := none },
          contact := some { user_id := 42, phone_number := "+15551234567" } }).successReplySent
        = false ∧
      dictGet (handle_contact_shared true false true true
        [((42 : Int),
          { from_user := { id := 42, full_name := "Bob", username := none },
            chat := { id := -100, title := "Acme" } })]
        { from_user := { id := 42, full_name := "Bob", username := none },
          contact := some { user_id := 42, phone_number := "+15551234567" } }).store
        ({ from_user := { id := 42, full_name := "Bob", username := none },
           contact := some { user_id := 42, phone_number := "+15551234567" } }
            : TgMessage).from_user.id = none) :=
  ⟨rfl, by decide,
   success_reply_failure_apology_path true true
     [((42 : Int),
       { from_user := { id := 42, full_name := "Bob", username := none },
         chat := { id := -100, title := "Acme" } })]
     { from_user := { id := 42, full_name := "Bob", username := none },
       contact := some { user_id := 42, phone_number := "+15551234567" } }
     { user_id := 42, phone_number := "+15551234567" }
     { from_user := { id := 42, full_name := "Bob", username := none },
       chat := { id := -100, title := "Acme" } }
     rfl (by decide) (by decide)⟩

end Telenum
